import Mathlib

/-!
Verification development for the per-account trade-mirroring engine in
`src/hyperliquid_monitor/bybit_sync.py` (class `BybitSyncManager`).

The Python code is shallowly embedded as executable Lean definitions:

* `classifyFill` models the decision structure of `sync_fill_record`
  (lines 364-599): the id/tx-hash dedup steps, the allowlist / symbol
  support / freshness filters, the reverse-flip branch, the full-close
  (0.995-ratio) check, and the dispatch to the close / reduce / open
  handlers.  External collaborators that are not part of this repository
  (symbol_filter, ReversePositionHandler, TWAPManager, the Bybit client)
  are abstracted as boolean fields of `ClassifyEnv` recording the results
  of their calls; the TWAP bookkeeping (which only feeds notifications)
  is not modelled.
* `handleOpenPosition` models the venue-visible behaviour of
  `_handle_open_position` (lines 668-979): the idempotency entry check,
  the small-size filters, the leverage call and the market-order
  placement, together with the `_synced_fills` bookkeeping.
* `partialCloseCalc` / `closeMemoUpdate` model the per-position sizing
  and forced-liquidation-memo logic of `_handle_close_position`
  (lines 1029-1228), and `handleCloseFailureCheck` its error-code-110017
  recovery branch (lines 1229-1280).  `reduceCloseCalc` /
  `reduceMemoUpdate` model the per-position logic of
  `_handle_reduce_position` (lines 1489-1570).
* `recordPlaceMapping` / `handleCancelOrder` model the order-id-mapping
  slice of `_handle_place_order` (lines 1685-1693) and
  `_handle_cancel_order` (lines 1736-1797).
* `getForcedLiquidation` models the method of the same name
  (lines 1885-1908).

Python `float` values are modelled as `ℚ`, Python sets and dicts as
lists (association lists for dicts, with insert-shadowing and
filter-deletion so that lookup/erase agree with dict semantics), and
Python truthiness of optional integers and strings is modelled
explicitly (`pyTruthyId`, equality with `""`).
-/

namespace HyperSmart

/-! ## Basic helpers -/

/-- Python `abs` on floats, modelled on `ℚ`. -/
def ratAbs (x : ℚ) : ℚ := if x < 0 then -x else x

/-- Python `min` on floats, modelled on `ℚ`. -/
def ratMin (a b : ℚ) : ℚ := if a ≤ b then a else b

theorem ratAbs_eq_abs (x : ℚ) : ratAbs x = |x| := by
  unfold ratAbs
  split
  · rw [abs_of_neg] ; assumption
  · rw [abs_of_nonneg] ; linarith

theorem ratMin_eq_min (a b : ℚ) : ratMin a b = min a b := by
  unfold ratMin
  rw [min_def]

/-- Char-list version of Python's `needle == hay[:len(needle)]`. -/
def listStartsWith : List Char → List Char → Bool
  | [], _ => true
  | _ :: _, [] => false
  | a :: as, b :: bs => a == b && listStartsWith as bs

/-- Char-list version of Python's substring test. -/
def listContainsSub (needle : List Char) : List Char → Bool
  | [] => listStartsWith needle []
  | c :: rest => listStartsWith needle (c :: rest) || listContainsSub needle rest

/-- Python `needle in hay` on strings. -/
def strContains (hay needle : String) : Bool := listContainsSub needle.toList hay.toList

/-- ASCII lower-casing of one character (the direction labels the engine
tests are ASCII, so this matches Python `str.lower` on them). -/
def charLower (c : Char) : Char :=
  if 65 ≤ c.toNat ∧ c.toNat ≤ 90 then Char.ofNat (c.toNat + 32) else c

/-- Python `needle in hay.lower()` for an already-lower-case needle. -/
def strContainsLower (hay needle : String) : Bool :=
  listContainsSub needle.toList (hay.toList.map charLower)

/-- Python `c in s` for a single character. -/
def strHasChar (s : String) (c : Char) : Bool := s.toList.contains c

/-- Python truthiness of an optional integer (`None` and `0` are falsy). -/
def pyTruthyId : Option Int → Bool
  | none => false
  | some n => if n = 0 then false else true

/-- The sentinel `tx_hash` excluded from deduplication
(bybit_sync.py line 396). -/
def SENTINEL_HASH : String :=
  "0x0000000000000000000000000000000000000000000000000000000000000000"

/-! ## Full-close detection -/

/-- Full-close test of `sync_fill_record` (lines 513-515):
`start_position != 0` and `abs(size / abs(start_position)) >= 0.995`. -/
def isCompleteClose (size startPosition : ℚ) : Bool :=
  if startPosition ≠ 0 ∧ 995/1000 ≤ ratAbs (size / ratAbs startPosition) then true
  else false

/-- Full-close test of `_handle_close_position` (lines 993-996):
`start_position != 0` and `abs(size / start_position) >= 0.99`. -/
def isFullCloseHl (size startPosition : ℚ) : Bool :=
  if startPosition ≠ 0 ∧ 99/100 ≤ ratAbs (size / startPosition) then true
  else false

/-! ## Event classification (`sync_fill_record`, lines 364-599) -/

/-- One fills row as read from the local store.  `id` is the optional
monotonic row id, `txHash` the `tx_hash` column (the `hash`/`tx_hash`
fallback of line 375 is identified with it). -/
structure FillRecord where
  id : Option Int
  txHash : String
  coin : String
  side : String
  size : ℚ
  price : ℚ
  direction : String
  closedPnl : ℚ
  startPosition : ℚ
deriving DecidableEq

/-- Results of the external collaborator calls made during one
`sync_fill_record` run, abstracted as booleans. -/
structure ClassifyEnv where
  /-- `symbol_filter.is_symbol_allowed(coin)` (line 229). -/
  symbolAllowed : Bool
  /-- `symbol_filter.enabled` (line 244). -/
  allowlistEnabled : Bool
  /-- `self.bybit.support_symbol(symbol_full)` (line 246). -/
  bybitSupports : Bool
  /-- `self._is_order_fresh(order_timestamp)` (line 295). -/
  orderFresh : Bool
  /-- `detect_reverse_signal` in the `'>' in direction` branch returned a
  signal (line 463). -/
  reverseDetected : Bool
  /-- `handle_reverse_signal` in that branch succeeded (line 476). -/
  reverseSuccess : Bool
  /-- `detect_reverse_signal` in the `'Open' in direction` branch
  returned a signal (line 531). -/
  reverseDetectedOpen : Bool
  /-- `handle_reverse_signal` in that branch succeeded (line 544). -/
  reverseSuccessOpen : Bool
  /-- `_handle_open_position` succeeded (lines 496, 565). -/
  openSuccess : Bool
deriving DecidableEq

/-- The per-account in-memory bookkeeping of `BybitSyncManager` touched
by `sync_fill_record`: `_synced_fills`, `_synced_tx_hashes`,
`_closed_symbols` (lines 98-108). -/
structure ClassifyState where
  syncedFills : List Int
  syncedTxHashes : List String
  closedSymbols : List String
deriving DecidableEq

/-- The route one fill takes through `sync_fill_record`. -/
inductive FillOutcome where
  /-- Early return at lines 374-382 (already synced / hash already seen). -/
  | alreadySynced
  /-- Duplicate non-sentinel `tx_hash` (lines 397-403). -/
  | duplicateTx
  /-- Coin not in the allowlist (lines 229-241). -/
  | skipFiltered
  /-- Allowlist disabled and Bybit does not list the symbol (lines 244-258). -/
  | skipUnsupported
  /-- Stale order (lines 295-307, 413-417). -/
  | skipStale
  /-- Reverse-flip branch handled the fill (lines 471-491). -/
  | reverseHandled (ok : Bool)
  /-- Reverse branch fell back to a plain open (lines 492-506). -/
  | reverseFallbackOpen (ok : Bool)
  /-- Full-close branch: `_handle_force_close_all` (lines 521-524). -/
  | forceCloseAll
  /-- `closed_pnl != 0` branch: `_handle_close_position` (lines 525-526). -/
  | closeByPnl
  /-- `'Close' in direction` branch: `_handle_reduce_position` (lines 527-528). -/
  | reduceByDirection
  /-- Reverse signal detected inside the `'Open'` branch (lines 539-559). -/
  | reverseHandledOpenBranch (ok : Bool)
  /-- Plain open/add: `_handle_open_position` (lines 561-577). -/
  | openHandled (ok : Bool)
  /-- No branch matched (line 579). -/
  | noAction
deriving DecidableEq

/-- Result of one `sync_fill_record` run: the route taken, the updated
bookkeeping, and the status this run writes for the record through
`db.update_fill_status` (the last such write; `none` when no status is
written at the `sync_fill_record` level). -/
structure ClassifyResult where
  outcome : FillOutcome
  state : ClassifyState
  status : Option String
deriving DecidableEq

/-- `self._synced_fills.add(record_id)` guarded by `record_id is not None`. -/
def addFillId (st : ClassifyState) (id : Option Int) : ClassifyState :=
  match id with
  | none => st
  | some n => { st with syncedFills := n :: st.syncedFills }

/-- `self._closed_symbols.remove(coin)` guarded by membership. -/
def removeClosed (st : ClassifyState) (coin : String) : ClassifyState :=
  { st with closedSymbols := st.closedSymbols.filter (fun c => c != coin) }

/-- Status written only when the record has an id
(`if record_id is not None: ... update_fill_status`). -/
def statusIfId : Option Int → String → Option String
  | none, _ => none
  | some _, s => some s

/-- Upstream dedup of lines 371-382: records without an id fall back to
hash dedup, records with an id are checked against `_synced_fills`. -/
def alreadyGuarded (st : ClassifyState) (r : FillRecord) : Bool :=
  match r.id with
  | none => if r.txHash ≠ "" ∧ r.txHash ∈ st.syncedTxHashes then true else false
  | some n => if n ∈ st.syncedFills then true else false

/-- Parse of the reverse direction label (lines 449-459): the new side is
`Sell` for long-to-short, `Buy` for short-to-long, `none` when the `'>'`
pattern is not recognised. -/
def reverseNewSide (direction : String) : Option String :=
  if strContains direction "Long > Short" = true
      ∨ strContainsLower direction "long > short" = true then some "Sell"
  else if strContains direction "Short > Long" = true
      ∨ strContainsLower direction "short > long" = true then some "Buy"
  else none

/-- End-of-run bookkeeping of lines 581-593: mark the row processed when
it has an id, otherwise remember its hash (when non-empty). -/
def finishProcessed (st : ClassifyState) (r : FillRecord) (o : FillOutcome) :
    ClassifyResult :=
  match r.id with
  | some n => ⟨o, { st with syncedFills := n :: st.syncedFills }, some "processed"⟩
  | none =>
      if r.txHash ≠ "" then
        ⟨o, { st with syncedTxHashes := r.txHash :: st.syncedTxHashes }, none⟩
      else ⟨o, st, none⟩

/-- Lines 508-593 of `sync_fill_record`: the full-close check and the
closed-pnl / Close / Open dispatch, entered only after the reverse branch
declined the fill. -/
def classifyCore (env : ClassifyEnv) (st : ClassifyState) (r : FillRecord) :
    ClassifyResult :=
  if isCompleteClose r.size r.startPosition = true then
    finishProcessed st r FillOutcome.forceCloseAll
  else if r.closedPnl ≠ 0 then
    finishProcessed st r FillOutcome.closeByPnl
  else if strContains r.direction "Close" = true
      ∨ strContainsLower r.direction "close" = true then
    finishProcessed st r FillOutcome.reduceByDirection
  else if strContains r.direction "Open" = true then
    if env.reverseDetectedOpen = true then
      if env.reverseSuccessOpen = true then
        ⟨FillOutcome.reverseHandledOpenBranch true,
          addFillId (removeClosed st r.coin) r.id, none⟩
      else
        ⟨FillOutcome.reverseHandledOpenBranch false, addFillId st r.id,
          statusIfId r.id "failed"⟩
    else
      finishProcessed (if env.openSuccess then removeClosed st r.coin else st) r
        (FillOutcome.openHandled env.openSuccess)
  else
    finishProcessed st r FillOutcome.noAction

/-- Lines 409-593 of `sync_fill_record`: everything after the tx-hash
dedup step — symbol support, freshness, the reverse-flip branch, and
`classifyCore`. -/
def classifyAfterDedup (env : ClassifyEnv) (st : ClassifyState) (r : FillRecord) :
    ClassifyResult :=
  if env.symbolAllowed = false then
    ⟨FillOutcome.skipFiltered, addFillId st r.id, statusIfId r.id "filtered"⟩
  else if env.allowlistEnabled = false ∧ env.bybitSupports = false then
    ⟨FillOutcome.skipUnsupported, addFillId st r.id, statusIfId r.id "unsupported"⟩
  else if env.orderFresh = false then
    ⟨FillOutcome.skipStale, addFillId st r.id, statusIfId r.id "filtered"⟩
  else if strHasChar r.direction '>' = true then
    match reverseNewSide r.direction with
    | some _ =>
        if env.reverseDetected = true then
          if env.reverseSuccess = true then
            ⟨FillOutcome.reverseHandled true,
              addFillId (removeClosed st r.coin) r.id, none⟩
          else
            ⟨FillOutcome.reverseHandled false, addFillId st r.id,
              statusIfId r.id "failed"⟩
        else
          ⟨FillOutcome.reverseFallbackOpen env.openSuccess,
            addFillId (if env.openSuccess then removeClosed st r.coin else st) r.id,
            none⟩
    | none => classifyCore env st r
  else classifyCore env st r

/-- One `sync_fill_record` run (lines 364-599). -/
def classifyFill (env : ClassifyEnv) (st : ClassifyState) (r : FillRecord) :
    ClassifyResult :=
  if alreadyGuarded st r = true then ⟨FillOutcome.alreadySynced, st, none⟩
  else if r.txHash ≠ "" ∧ r.txHash ≠ SENTINEL_HASH then
    if r.txHash ∈ st.syncedTxHashes then
      ⟨FillOutcome.duplicateTx, addFillId st r.id, statusIfId r.id "duplicate"⟩
    else
      classifyAfterDedup env
        { st with syncedTxHashes := r.txHash :: st.syncedTxHashes } r
  else classifyAfterDedup env st r

/-- Whether an outcome reached one of the trade handlers (and may hence
issue destination-venue calls and notifications). -/
def outcomeDispatches : FillOutcome → Bool
  | FillOutcome.alreadySynced => false
  | FillOutcome.duplicateTx => false
  | FillOutcome.skipFiltered => false
  | FillOutcome.skipUnsupported => false
  | FillOutcome.skipStale => false
  | FillOutcome.noAction => false
  | _ => true

/-! ## Open/add handler (`_handle_open_position`, lines 668-979) -/

/-- Destination-venue calls issued by `_handle_open_position`, in order. -/
inductive VenueAction where
  /-- `self.bybit.set_max_leverage(symbol, use_exchange_max=True)` (line 748);
  `leverage` is the value the call returns and applies. -/
  | setMaxLeverage (useExchangeMax : Bool) (leverage : Int)
  /-- `self.bybit.open_market_order(symbol, side, qty)` (lines 780-784). -/
  | placeMarketOrder (symbol side : String) (qty : ℚ)
deriving DecidableEq

/-- Results of the collaborator calls made during one
`_handle_open_position` attempt, abstracted. -/
structure OpenEnv where
  /-- `self.position_calculator.calculate_copy_size(size, price, symbol)` (line 708). -/
  copySize : ℚ
  /-- `self.bybit.clamp_order_quantity(symbol, str(price), str(copy_size))` (line 752). -/
  clampedQty : ℚ
  /-- `self.config.min_position_size` (lines 32, 754). -/
  minPositionSize : ℚ
  /-- The leverage `set_max_leverage(..., use_exchange_max=True)` returns:
  the exchange's maximum for the symbol (line 748). -/
  exchangeLeverage : Int
  /-- Whether `open_market_order` returned success with an order id (line 786). -/
  placeSucceeds : Bool
deriving DecidableEq

/-- The way one `_handle_open_position` attempt ended. -/
inductive OpenOutcome where
  /-- Idempotency entry check fired (lines 701-704). -/
  | skippedIdempotent
  /-- `copy_size <= 0`: follow value too small (lines 711-741). -/
  | filteredSmallValue
  /-- `float(qty) < min_position_size` (lines 754-761). -/
  | filteredSmallQty
  /-- Market order placed and confirmed (lines 786-926). -/
  | placedOk
  /-- Market order call returned failure (lines 927-952). -/
  | placeFailed
deriving DecidableEq

/-- Result of one `_handle_open_position` attempt: how it ended, the
updated `_synced_fills`, and the venue calls it issued in order. -/
structure OpenResult where
  outcome : OpenOutcome
  syncedFills : List Int
  actions : List VenueAction
deriving DecidableEq

/-- `self._synced_fills.add(record_id)` under the truthiness guard
`if record_id:` used throughout `_handle_open_position`
(lines 737, 757, 866, 931, 958). -/
def markSynced (synced : List Int) (rid : Option Int) : List Int :=
  if pyTruthyId rid = true then (rid.getD 0) :: synced else synced

/-- One `_handle_open_position` attempt (lines 668-979), restricted to
its entry check, size filters, venue calls and `_synced_fills` updates. -/
def handleOpenPosition (env : OpenEnv) (symbol side : String) (rid : Option Int)
    (synced : List Int) : OpenResult :=
  if pyTruthyId rid = true ∧ (rid.getD 0) ∈ synced then
    ⟨OpenOutcome.skippedIdempotent, synced, []⟩
  else if env.copySize ≤ 0 then
    ⟨OpenOutcome.filteredSmallValue, markSynced synced rid, []⟩
  else if env.clampedQty < env.minPositionSize then
    ⟨OpenOutcome.filteredSmallQty, markSynced synced rid,
      [VenueAction.setMaxLeverage true env.exchangeLeverage]⟩
  else if env.placeSucceeds = true then
    ⟨OpenOutcome.placedOk, markSynced synced rid,
      [VenueAction.setMaxLeverage true env.exchangeLeverage,
        VenueAction.placeMarketOrder symbol side env.clampedQty]⟩
  else
    ⟨OpenOutcome.placeFailed, markSynced synced rid,
      [VenueAction.setMaxLeverage true env.exchangeLeverage,
        VenueAction.placeMarketOrder symbol side env.clampedQty]⟩

/-- Number of market-order calls in a venue-action trace. -/
def placementCount (acts : List VenueAction) : Nat :=
  (acts.filter fun a =>
    match a with
    | VenueAction.placeMarketOrder _ _ _ => true
    | _ => false).length

/-- Repeated invocation of `_handle_open_position` for one record,
threading `_synced_fills`, summing market-order calls.  This
over-approximates any retry policy of the `critical_retry` decorator:
the decorator re-calls the same handler with the same arguments. -/
def iterateOpen (env : OpenEnv) (symbol side : String) (rid : Option Int) :
    Nat → List Int → List Int × Nat
  | 0, s => (s, 0)
  | n + 1, s =>
      let r := handleOpenPosition env symbol side rid s
      let rest := iterateOpen env symbol side rid n r.syncedFills
      (rest.1, placementCount r.actions + rest.2)

/-- `_get_leverage_for_symbol` (lines 178-189): per-coin override from
the custom leverage table, else the global default.  The
`ensure_short_symbol(symbol).upper()` normalisation is performed by an
external utility; `coin` here is the normalised short name. -/
def getLeverageForSymbol (leverageConfig : List (String × Int)) (maxLeverage : Int)
    (coin : String) : Int :=
  match List.lookup coin leverageConfig with
  | some v => v
  | none => maxLeverage

/-! ## Close handler sizing and forced-liquidation memos
(`_handle_close_position`, lines 981-1314; `_handle_reduce_position`,
lines 1449-1610; `get_forced_liquidation`, lines 1885-1908) -/

/-- One forced-liquidation record: written time (seconds) and
`type` field (`"follow"` or `"forced"`).  The free-text `reason` and the
size annotations carried alongside are not claim-relevant and are
omitted. -/
structure LiqMemo where
  time : ℚ
  kind : String
deriving DecidableEq

/-- Python dict assignment `d[key] = m` on the memo store. -/
def memoInsert (store : List (String × LiqMemo)) (key : String) (m : LiqMemo) :
    List (String × LiqMemo) :=
  (key, m) :: store.filter (fun p => p.1 != key)

/-- Python `del d[key]` on the memo store. -/
def memoErase (store : List (String × LiqMemo)) (key : String) :
    List (String × LiqMemo) :=
  store.filter (fun p => p.1 != key)

/-- Per-position close sizing of the non-full-close branch of
`_handle_close_position` (lines 1046-1062): `close_size`,
`was_forced_full_close` and `is_partial` as computed there. -/
structure PartialCloseResult where
  closeSize : ℚ
  wasForcedFullClose : Bool
  isPartial : Bool
deriving DecidableEq

/-- Lines 1046-1062: `close_size = min(size, pos_size)`; when a positive
minimum lot exceeds it, bump to `min(min_qty, pos_size)` and flag a
forced full close when that reaches the whole position. -/
def partialCloseCalc (size posSize minQty : ℚ) : PartialCloseResult :=
  let closeSize := ratMin size posSize
  if 0 < minQty ∧ closeSize < minQty then
    let closeSize2 := ratMin minQty posSize
    ⟨closeSize2, if posSize ≤ closeSize2 then true else false,
      if closeSize2 < posSize then true else false⟩
  else
    ⟨closeSize, false, if closeSize < posSize then true else false⟩

/-- Memo writes after one successful position close in
`_handle_close_position`: kind `forced` when the minimum-lot bump turned
the reduce into a full close (lines 1137-1149), kind `follow` on a clean
full close (lines 1204-1218), nothing otherwise.  `success` and
`closedSize` are the venue's close-call results (line 1068 guard). -/
def closeMemoUpdate (store : List (String × LiqMemo)) (posSymbol posSide : String)
    (now : ℚ) (isFullCloseHlFlag wasForced success : Bool) (closedSize : ℚ) :
    List (String × LiqMemo) :=
  if success = true ∧ 0 < closedSize then
    if wasForced = true then
      memoInsert store (posSymbol ++ "_" ++ posSide) ⟨now, "forced"⟩
    else if isFullCloseHlFlag = true then
      memoInsert store (posSymbol ++ "_" ++ posSide) ⟨now, "follow"⟩
    else store
  else store

/-- Per-position behaviour of `_handle_reduce_position`
(lines 1491-1505): the close call always targets the entire position
(`close_position(position, is_half=False)`); the close is flagged
accidental/forced when the position is at most the minimum lot
(lines 1497-1501). -/
def reduceCloseCalc (posSize minQty : ℚ) : PartialCloseResult :=
  ⟨posSize, if 0 < minQty ∧ posSize ≤ minQty then true else false, false⟩

/-- Memo write of `_handle_reduce_position` (lines 1506-1525): a
`forced` memo for `(symbol, side)` when the close succeeded and was
flagged accidental. -/
def reduceMemoUpdate (store : List (String × LiqMemo)) (posSymbol posSide : String)
    (now posSize minQty : ℚ) (success : Bool) (closedSize : ℚ) :
    List (String × LiqMemo) :=
  if success = true ∧ 0 < closedSize
      ∧ (reduceCloseCalc posSize minQty).wasForcedFullClose = true then
    memoInsert store (posSymbol ++ "_" ++ posSide) ⟨now, "forced"⟩
  else store

/-- `get_forced_liquidation` (lines 1885-1908): return the memo for
`symbol + "_" + side` when it is younger than 300 seconds, otherwise
delete it and return `none`. -/
def getForcedLiquidation (store : List (String × LiqMemo)) (now : ℚ)
    (symbol side : String) : Option LiqMemo × List (String × LiqMemo) :=
  let key := symbol ++ "_" ++ side
  match List.lookup key store with
  | some m => if now - m.time < 300 then (some m, store) else (none, memoErase store key)
  | none => (none, store)

/-! ## Position-is-zero recovery (`_handle_close_position`, lines 1229-1280) -/

/-- One destination-venue position row (`symbol`, `side`, `size`). -/
structure BPosition where
  symbol : String
  side : String
  size : ℚ
deriving DecidableEq

/-- The loop of lines 1243-1247: size of the first position matching
`(symbol, side)` in a query result, `0` when none matches. -/
def posQuerySize (ps : List BPosition) (symbol side : String) : ℚ :=
  match ps.find? (fun p => p.symbol == symbol && p.side == side) with
  | some p => p.size
  | none => 0

/-- Observable effects of the close-failure branch of
`_handle_close_position` (lines 1229-1258). -/
structure CloseFailureResult where
  /-- Seconds slept before requerying (line 1237). -/
  sleptSeconds : Nat
  /-- Whether positions were requeried without cache (line 1240). -/
  requeried : Bool
  /-- Whether the close was counted as a success (line 1253). -/
  treatedSuccess : Bool
  /-- Whether a failure notification is emitted (lines 1233, 1251, 1260). -/
  failureNotified : Bool
deriving DecidableEq

/-- Lines 1229-1258: on error code `"110017"` sleep five seconds and
requery positions without cache; treat the close as achieved (and skip
the failure notification) only when the requery returned a non-empty
list in which the target `(symbol, side)` size is `0`. -/
def handleCloseFailureCheck (errorCode : String) (requery : List BPosition)
    (posSymbol posSide : String) : CloseFailureResult :=
  if errorCode = "110017" then
    if requery ≠ [] then
      if posQuerySize requery posSymbol posSide = 0 then ⟨5, true, true, false⟩
      else ⟨5, true, false, true⟩
    else ⟨5, true, false, true⟩
  else ⟨0, false, false, true⟩

/-! ## Order-id mapping (`_handle_place_order`, lines 1685-1693;
`_handle_cancel_order`, lines 1736-1797) -/

/-- One open limit order on the destination venue. -/
structure OpenOrder where
  symbol : String
  side : String
  price : ℚ
  orderId : String
deriving DecidableEq

/-- Python dict assignment on `_order_id_mapping`. -/
def mappingInsert (m : List (Int × String)) (hl : Int) (b : String) :
    List (Int × String) :=
  (hl, b) :: m.filter (fun p => p.1 != hl)

/-- Python `del` on `_order_id_mapping` guarded by membership
(lines 1779-1781, 1790-1792). -/
def mappingErase (m : List (Int × String)) (hl : Int) : List (Int × String) :=
  m.filter (fun p => p.1 != hl)

/-- Mapping update of `_handle_place_order` (lines 1685-1693): after a
successful limit-order placement with a truthy source order id, record
`source order_id -> destination order id`. -/
def recordPlaceMapping (m : List (Int × String)) (hlOrderId : Option Int)
    (success : Bool) (bybitOrderId : String) : List (Int × String) :=
  if success = true ∧ bybitOrderId ≠ "" ∧ pyTruthyId hlOrderId = true then
    mappingInsert m (hlOrderId.getD 0) bybitOrderId
  else m

/-- Fallback scan of `_handle_cancel_order` (lines 1758-1767): the first
open order matching the record's symbol and side whose price is within
`0.01` of the record's price. -/
def scanMatchingOrder (orders : List OpenOrder) (symbol side : String) (price : ℚ) :
    Option String :=
  match orders.find? (fun o =>
      o.symbol == symbol && o.side == side
        && (if ratAbs (o.price - price) < 1/100 then true else false)) with
  | some o => some o.orderId
  | none => none

/-- The way one `_handle_cancel_order` run ended. -/
inductive CancelOutcome where
  /-- Missing/falsy source order id (lines 1738-1740). -/
  | missingHlId
  /-- Neither the mapping nor the price scan produced a target
  (lines 1769-1771): no venue cancel is issued. -/
  | noTargetFound
  /-- The resolved destination order no longer exists (lines 1776-1782). -/
  | orderGone
  /-- `cancel_order` succeeded on the given destination id (lines 1787-1792). -/
  | cancelSuccess (bybitOrderId : String)
  /-- `cancel_order` failed on the given destination id (lines 1793-1794). -/
  | cancelFailed (bybitOrderId : String)
deriving DecidableEq

/-- Results of the collaborator calls made during one
`_handle_cancel_order` run. -/
structure CancelEnv where
  /-- `self.bybit.query_open_orders()` (line 1759). -/
  openOrders : List OpenOrder
  /-- Whether `query_order` found the resolved order (line 1774). -/
  orderExists : Bool
  /-- Whether `cancel_order` succeeded (line 1785). -/
  cancelSucceeds : Bool
deriving DecidableEq

/-- One `_handle_cancel_order` run (lines 1736-1797): resolve the
destination id via the mapping, else via the price scan; cancel;
maintain the mapping. -/
def handleCancelOrder (env : CancelEnv) (m : List (Int × String)) (symbol : String)
    (hlOrderId : Option Int) (recPrice : ℚ) (recSide : String) :
    CancelOutcome × List (Int × String) :=
  if pyTruthyId hlOrderId = false then (CancelOutcome.missingHlId, m)
  else
    let hl := hlOrderId.getD 0
    let resolved :=
      match List.lookup hl m with
      | some b => some b
      | none =>
          if 0 < recPrice then scanMatchingOrder env.openOrders symbol recSide recPrice
          else none
    match resolved with
    | none => (CancelOutcome.noTargetFound, m)
    | some b =>
        if env.orderExists = false then (CancelOutcome.orderGone, mappingErase m hl)
        else if env.cancelSucceeds = true then
          (CancelOutcome.cancelSuccess b, mappingErase m hl)
        else (CancelOutcome.cancelFailed b, m)

/-! ## General helper lemmas -/

theorem ite_true_false_eq_true (p : Prop) [Decidable p] :
    (if p then true else false) = true ↔ p := by
  split <;> simp_all

theorem lookup_filter_ne {α β : Type} [BEq α] [LawfulBEq α]
    (l : List (α × β)) (k : α) :
    List.lookup k (l.filter (fun p => p.1 != k)) = none := by
  induction l with
  | nil => rfl
  | cons hd tl ih =>
      by_cases h : hd.1 = k
      · simpa [List.filter_cons, h] using ih
      · have hb : (k == hd.1) = false := beq_eq_false_iff_ne.mpr (Ne.symm h)
        simp [List.filter_cons, h, List.lookup, ih, hb]

theorem addFillId_txHashes (st : ClassifyState) (id : Option Int) :
    (addFillId st id).syncedTxHashes = st.syncedTxHashes := by
  cases id <;> rfl

theorem removeClosed_txHashes (st : ClassifyState) (c : String) :
    (removeClosed st c).syncedTxHashes = st.syncedTxHashes := rfl

theorem finishProcessed_txHashes_mem (st : ClassifyState) (r : FillRecord)
    (o : FillOutcome) (h : String) (hm : h ∈ st.syncedTxHashes) :
    h ∈ (finishProcessed st r o).state.syncedTxHashes := by
  rcases hcase : r.id with _ | n
  · simp only [finishProcessed, hcase]
    split
    · exact List.mem_cons_of_mem _ hm
    · exact hm
  · simp only [finishProcessed, hcase]
    exact hm

theorem classifyCore_txHashes_mem (env : ClassifyEnv) (st : ClassifyState)
    (r : FillRecord) (h : String) (hm : h ∈ st.syncedTxHashes) :
    h ∈ (classifyCore env st r).state.syncedTxHashes := by
  rcases hcase : r.id with _ | n <;>
    · simp only [classifyCore, finishProcessed, addFillId, removeClosed, hcase]
      repeat' split
      all_goals simp_all

theorem classifyAfterDedup_txHashes_mem (env : ClassifyEnv) (st : ClassifyState)
    (r : FillRecord) (h : String) (hm : h ∈ st.syncedTxHashes) :
    h ∈ (classifyAfterDedup env st r).state.syncedTxHashes := by
  unfold classifyAfterDedup
  repeat' split
  all_goals
    first
      | exact classifyCore_txHashes_mem _ _ _ _ hm
      | (rcases hcase : r.id with _ | n <;>
          simp_all [addFillId, removeClosed])

/-! ## Claim C1 -/

/-- C1 counterexample: a fill with `start_position = 2`, `size = 2`
(full-close ratio 1 ≥ 0.995) and direction `"Long > Short"` is routed to
the reverse-flip branch, not to the force-close-all branch: in
`sync_fill_record` the reverse check (line 445) runs before the
full-close check (line 508), so the claim's precedence is false on the
code. -/
theorem c1_reverse_precedes_full_close_counterexample :
    isCompleteClose (2 : ℚ) 2 = true
    ∧ reverseNewSide "Long > Short" = some "Sell"
    ∧ (classifyFill ⟨true, true, true, true, true, true, false, false, true⟩
        ⟨[], [], []⟩
        ⟨some 1, "0xabc", "ETH", "BUY", 2, 3000, "Long > Short", 100, 2⟩).outcome
      = FillOutcome.reverseHandled true
    ∧ (classifyFill ⟨true, true, true, true, true, true, false, false, true⟩
        ⟨[], [], []⟩
        ⟨some 1, "0xabc", "ETH", "BUY", 2, 3000, "Long > Short", 100, 2⟩).outcome
      ≠ FillOutcome.forceCloseAll := by
  refine ⟨?_, by decide, by decide, by decide⟩
  norm_num [isCompleteClose, ratAbs]

/-- C1 (amended): for a fill whose direction does not contain `'>'`, the
full-close test (`start_position ≠ 0` and ratio ≥ 0.995) is checked
before the closed-pnl, `Close`-direction and `Open`-direction rules, and
classification then yields the force-close-all route — regardless of
`closed_pnl`, of the rest of the direction string, and of the reverse
detector's answers.  A fill whose direction matches the reverse pattern
is instead taken by the reverse branch first (see the counterexample). -/
theorem c1_full_close_precedes_pnl_checks
    (env : ClassifyEnv) (st : ClassifyState) (r : FillRecord) (n : Int)
    (hid : r.id = some n) (hn : n ∉ st.syncedFills)
    (hh : r.txHash ≠ "") (hsent : r.txHash ≠ SENTINEL_HASH)
    (hnew : r.txHash ∉ st.syncedTxHashes)
    (hallow : env.symbolAllowed = true) (hwl : env.allowlistEnabled = true)
    (hfresh : env.orderFresh = true)
    (hgt : strHasChar r.direction '>' = false)
    (hcc : isCompleteClose r.size r.startPosition = true) :
    (classifyFill env st r).outcome = FillOutcome.forceCloseAll := by
  simp [classifyFill, alreadyGuarded, classifyAfterDedup, classifyCore,
    finishProcessed, hid, hn, hh, hsent, hnew, hallow, hwl, hfresh, hgt, hcc]

/-- C1 witness: the amended theorem applied at a concrete full-close
fill with direction `"Close Long"`. -/
theorem c1_full_close_precedes_pnl_checks_witness :
    (classifyFill ⟨true, true, true, true, false, false, false, false, true⟩
      ⟨[], [], []⟩
      ⟨some 1, "0xabc", "BTC", "SELL", 2, 100, "Close Long", 5, 2⟩).outcome
    = FillOutcome.forceCloseAll :=
  c1_full_close_precedes_pnl_checks _ _ _ 1 rfl (by decide) (by decide) (by decide)
    (by decide) rfl rfl rfl (by decide) (by norm_num [isCompleteClose, ratAbs])

/-! ## Claim C4 -/

/-- C4 counterexample: a fill with `size = 992`, `start_position = 1000`
(ratio 0.992) is below the classifier's 0.995 full-close threshold but
at or above the 0.99 threshold `_handle_close_position` uses (line 996):
the engine does not use a single 0.995 threshold. -/
theorem c4_two_thresholds_counterexample :
    isCompleteClose 992 1000 = false ∧ isFullCloseHl 992 1000 = true := by
  constructor
  · norm_num [isCompleteClose, ratAbs]
  · norm_num [isFullCloseHl, ratAbs]

/-- C4 (amended): the classifier's full-close test uses threshold 0.995
on `|size / start_position|` with `start_position ≠ 0`, while
`_handle_close_position` re-derives full-versus-partial with threshold
0.99 on the same ratio: two thresholds, not one. -/
theorem c4_threshold_values (size sp : ℚ) (h : sp ≠ 0) :
    (isCompleteClose size sp = true ↔ 995/1000 ≤ |size / sp|)
    ∧ (isFullCloseHl size sp = true ↔ 99/100 ≤ |size / sp|) := by
  have habs : ratAbs (size / ratAbs sp) = |size / sp| := by
    rw [ratAbs_eq_abs, ratAbs_eq_abs, abs_div, abs_div, abs_abs]
  have habs2 : ratAbs (size / sp) = |size / sp| := ratAbs_eq_abs _
  constructor
  · unfold isCompleteClose
    simp only [habs]
    rw [ite_true_false_eq_true]
    simp [h]
  · unfold isFullCloseHl
    simp only [habs2]
    rw [ite_true_false_eq_true]
    simp [h]

/-- C4 witness: the amended theorem applied at `size = 992`,
`start_position = 1000`. -/
theorem c4_threshold_values_witness :
    (isCompleteClose 992 1000 = true ↔ 995/1000 ≤ |(992 : ℚ) / 1000|)
    ∧ (isFullCloseHl 992 1000 = true ↔ 99/100 ≤ |(992 : ℚ) / 1000|) :=
  c4_threshold_values 992 1000 (by decide)

/-! ## Claim C10 -/

/-- C10: a non-sentinel `tx_hash` unseen so far is inserted into the
processed-tx-hash set by `sync_fill_record` no matter what the allowlist,
symbol-support and freshness checks or the handlers subsequently decide
(for every environment); any later fill carrying the same hash is marked
duplicate (when it has an id) or skipped by the upstream hash guard
(when it has none), and in either case reaches no trade handler. -/
theorem c10_tx_hash_first_sight
    (st : ClassifyState) (r : FillRecord)
    (hh : r.txHash ≠ "") (hsent : r.txHash ≠ SENTINEL_HASH)
    (hnew : r.txHash ∉ st.syncedTxHashes)
    (hid : ∀ n, r.id = some n → n ∉ st.syncedFills) :
    (∀ env : ClassifyEnv, r.txHash ∈ (classifyFill env st r).state.syncedTxHashes)
    ∧ (∀ (env2 : ClassifyEnv) (st2 : ClassifyState) (r2 : FillRecord) (n2 : Int),
        r2.txHash = r.txHash → r2.id = some n2 → r.txHash ∈ st2.syncedTxHashes →
        n2 ∉ st2.syncedFills →
        (classifyFill env2 st2 r2).outcome = FillOutcome.duplicateTx
        ∧ (classifyFill env2 st2 r2).status = some "duplicate"
        ∧ outcomeDispatches (classifyFill env2 st2 r2).outcome = false)
    ∧ (∀ (env2 : ClassifyEnv) (st2 : ClassifyState) (r2 : FillRecord),
        r2.txHash = r.txHash → r2.id = none → r.txHash ∈ st2.syncedTxHashes →
        (classifyFill env2 st2 r2).outcome = FillOutcome.alreadySynced
        ∧ outcomeDispatches (classifyFill env2 st2 r2).outcome = false) := by
  have hguard : alreadyGuarded st r = false := by
    rcases hcase : r.id with _ | n
    · simp [alreadyGuarded, hcase, hnew]
    · simp [alreadyGuarded, hcase, hid n hcase]
  refine ⟨?_, ?_, ?_⟩
  · intro env
    simp only [classifyFill, hguard]
    rw [if_neg (by simp)]
    rw [if_pos ⟨hh, hsent⟩, if_neg hnew]
    exact classifyAfterDedup_txHashes_mem env _ r r.txHash (List.mem_cons_self _ _)
  · intro env2 st2 r2 n2 hhash hid2 hmem hn2
    have hguard2 : alreadyGuarded st2 r2 = false := by
      simp [alreadyGuarded, hid2, hn2]
    simp [classifyFill, hguard2, hhash, hh, hsent, hmem, statusIfId, hid2,
      outcomeDispatches]
  · intro env2 st2 r2 hhash hid2 hmem
    have hguard2 : alreadyGuarded st2 r2 = true := by
      simp [alreadyGuarded, hid2, hhash, hh, hmem]
    simp [classifyFill, hguard2, outcomeDispatches]

/-- C10 witness: at a concrete fill the hash is recorded even though the
allowlist rejects the coin, and a later fill with the same hash is
marked duplicate. -/
theorem c10_tx_hash_first_sight_witness :
    "0xabc" ∈ (classifyFill ⟨false, true, true, true, false, false, false, false, true⟩
        ⟨[], [], []⟩
        ⟨some 1, "0xabc", "BTC", "BUY", 1, 100, "Open Long", 0, 0⟩).state.syncedTxHashes
    ∧ (classifyFill ⟨true, true, true, true, false, false, false, false, true⟩
        ⟨[], ["0xabc"], []⟩
        ⟨some 2, "0xabc", "BTC", "BUY", 1, 100, "Open Long", 0, 0⟩).outcome
      = FillOutcome.duplicateTx :=
  ⟨(c10_tx_hash_first_sight ⟨[], [], []⟩
      ⟨some 1, "0xabc", "BTC", "BUY", 1, 100, "Open Long", 0, 0⟩
      (by decide) (by decide) (by decide)
      (by intro n hn; exact List.not_mem_nil n)).1
      ⟨false, true, true, true, false, false, false, false, true⟩,
   ((c10_tx_hash_first_sight ⟨[], [], []⟩
      ⟨some 1, "0xabc", "BTC", "BUY", 1, 100, "Open Long", 0, 0⟩
      (by decide) (by decide) (by decide)
      (by intro n hn; exact List.not_mem_nil n)).2.1
      ⟨true, true, true, true, false, false, false, false, true⟩
      ⟨[], ["0xabc"], []⟩
      ⟨some 2, "0xabc", "BTC", "BUY", 1, 100, "Open Long", 0, 0⟩ 2
      rfl rfl (by decide) (by decide)).1⟩

/-! ## Claim C5 -/

/-- C5: of two fills carrying the same non-sentinel `tx_hash`, the first
one (here one that passes the filters and dispatches on its nonzero
`closed_pnl`) is dispatched, and the second is skipped as a duplicate:
its status is set to `duplicate` and its outcome reaches no trade
handler, hence causes no venue call and no notification. -/
theorem c5_duplicate_tx_hash_skipped
    (env1 env2 : ClassifyEnv) (st : ClassifyState) (r1 r2 : FillRecord) (n1 n2 : Int)
    (hid1 : r1.id = some n1) (hn1 : n1 ∉ st.syncedFills)
    (hh : r1.txHash ≠ "") (hsent : r1.txHash ≠ SENTINEL_HASH)
    (hnew : r1.txHash ∉ st.syncedTxHashes)
    (hallow : env1.symbolAllowed = true) (hwl : env1.allowlistEnabled = true)
    (hfresh : env1.orderFresh = true)
    (hgt : strHasChar r1.direction '>' = false)
    (hncc : isCompleteClose r1.size r1.startPosition = false)
    (hpnl : r1.closedPnl ≠ 0)
    (h2hash : r2.txHash = r1.txHash) (hid2 : r2.id = some n2)
    (hne : n2 ≠ n1) (hn2 : n2 ∉ st.syncedFills) :
    outcomeDispatches (classifyFill env1 st r1).outcome = true
    ∧ (classifyFill env2 (classifyFill env1 st r1).state r2).outcome
        = FillOutcome.duplicateTx
    ∧ (classifyFill env2 (classifyFill env1 st r1).state r2).status
        = some "duplicate"
    ∧ outcomeDispatches
        (classifyFill env2 (classifyFill env1 st r1).state r2).outcome = false := by
  have hguard1 : alreadyGuarded st r1 = false := by
    simp [alreadyGuarded, hid1, hn1]
  have hres1 : classifyFill env1 st r1
      = ⟨FillOutcome.closeByPnl,
          ⟨n1 :: st.syncedFills, r1.txHash :: st.syncedTxHashes, st.closedSymbols⟩,
          some "processed"⟩ := by
    simp [classifyFill, hguard1, classifyAfterDedup, classifyCore, finishProcessed,
      hid1, hh, hsent, hnew, hallow, hwl, hfresh, hgt, hncc, hpnl]
  rw [hres1]
  have hguard2 : alreadyGuarded
      ⟨n1 :: st.syncedFills, r1.txHash :: st.syncedTxHashes, st.closedSymbols⟩ r2
      = false := by
    simp [alreadyGuarded, hid2, hne, hn2]
  simp [classifyFill, hguard2, h2hash, hh, hsent, statusIfId, hid2,
    outcomeDispatches]

/-- C5 witness: two concrete fills sharing hash `"0xabc"`; the first
dispatches on its nonzero realized pnl, the second is marked duplicate
with no dispatch. -/
theorem c5_duplicate_tx_hash_skipped_witness :
    outcomeDispatches (classifyFill
        ⟨true, true, true, true, false, false, false, false, true⟩ ⟨[], [], []⟩
        ⟨some 1, "0xabc", "BTC", "SELL", 1, 100, "Close Long", 5, 100⟩).outcome = true
    ∧ (classifyFill ⟨true, true, true, true, false, false, false, false, true⟩
        (classifyFill ⟨true, true, true, true, false, false, false, false, true⟩
          ⟨[], [], []⟩
          ⟨some 1, "0xabc", "BTC", "SELL", 1, 100, "Close Long", 5, 100⟩).state
        ⟨some 2, "0xabc", "BTC", "SELL", 1, 100, "Close Long", 5, 100⟩).outcome
      = FillOutcome.duplicateTx :=
  ⟨(c5_duplicate_tx_hash_skipped
      ⟨true, true, true, true, false, false, false, false, true⟩
      ⟨true, true, true, true, false, false, false, false, true⟩ ⟨[], [], []⟩
      ⟨some 1, "0xabc", "BTC", "SELL", 1, 100, "Close Long", 5, 100⟩
      ⟨some 2, "0xabc", "BTC", "SELL", 1, 100, "Close Long", 5, 100⟩ 1 2
      rfl (by decide) (by decide) (by decide) (by decide) rfl rfl rfl (by decide)
      (by norm_num [isCompleteClose, ratAbs]) (by decide) rfl rfl (by decide)
      (by decide)).1,
   (c5_duplicate_tx_hash_skipped
      ⟨true, true, true, true, false, false, false, false, true⟩
      ⟨true, true, true, true, false, false, false, false, true⟩ ⟨[], [], []⟩
      ⟨some 1, "0xabc", "BTC", "SELL", 1, 100, "Close Long", 5, 100⟩
      ⟨some 2, "0xabc", "BTC", "SELL", 1, 100, "Close Long", 5, 100⟩ 1 2
      rfl (by decide) (by decide) (by decide) (by decide) rfl rfl rfl (by decide)
      (by norm_num [isCompleteClose, ratAbs]) (by decide) rfl rfl (by decide)
      (by decide)).2.1⟩

/-! ## Claim C2 -/

theorem handleOpen_skip (env : OpenEnv) (symbol side : String) (rid : Option Int)
    (synced : List Int) (ht : pyTruthyId rid = true)
    (hm : (rid.getD 0) ∈ synced) :
    handleOpenPosition env symbol side rid synced
      = ⟨OpenOutcome.skippedIdempotent, synced, []⟩ := by
  unfold handleOpenPosition
  rw [if_pos ⟨ht, hm⟩]

theorem handleOpen_mem (env : OpenEnv) (symbol side : String) (rid : Option Int)
    (synced : List Int) (ht : pyTruthyId rid = true) :
    (rid.getD 0) ∈ (handleOpenPosition env symbol side rid synced).syncedFills := by
  have hmark : (rid.getD 0) ∈ markSynced synced rid := by
    simp [markSynced, ht]
  unfold handleOpenPosition
  split
  · next hc => exact hc.2
  · repeat' split
    all_goals exact hmark

theorem placementCount_handleOpen_le (env : OpenEnv) (symbol side : String)
    (rid : Option Int) (synced : List Int) :
    placementCount (handleOpenPosition env symbol side rid synced).actions ≤ 1 := by
  unfold handleOpenPosition
  repeat' split
  all_goals simp [placementCount, List.filter]

theorem iterateOpen_zero_of_mem (env : OpenEnv) (symbol side : String)
    (rid : Option Int) (ht : pyTruthyId rid = true) (n : Nat) :
    ∀ synced : List Int, (rid.getD 0) ∈ synced →
      iterateOpen env symbol side rid n synced = (synced, 0) := by
  induction n with
  | zero => intro s _; rfl
  | succ k ih =>
      intro s hm
      simp only [iterateOpen]
      rw [handleOpen_skip env symbol side rid s ht hm]
      simp [placementCount, ih s hm]

/-- C2 counterexample: for event id `0` the idempotency entry check of
`_handle_open_position` is skipped (Python truthiness of
`if record_id and record_id in self._synced_fills`), so even though `0`
is already recorded in the processed set, the handler proceeds and
places a venue order instead of returning success without placing. -/
theorem c2_zero_id_idempotency_counterexample :
    ((0 : Int) ∈ ([0] : List Int))
    ∧ (handleOpenPosition ⟨1, 1, 0, 100, true⟩ "BTCUSDT" "Buy" (some 0) [0]).outcome
        = OpenOutcome.placedOk
    ∧ placementCount
        (handleOpenPosition ⟨1, 1, 0, 100, true⟩ "BTCUSDT" "Buy" (some 0) [0]).actions
      = 1 := by decide

/-- C2 (amended): for every present and nonzero event id, the
`_handle_open_position` entry check short-circuits to success with no
venue call whenever the id is already in the processed set, and across
any number of repeated handler invocations (any retry policy) at most
one market-order placement is ever issued. -/
theorem c2_at_most_one_placement
    (env : OpenEnv) (symbol side : String) (rid : Option Int) (synced : List Int)
    (ht : pyTruthyId rid = true) :
    ((rid.getD 0) ∈ synced →
        handleOpenPosition env symbol side rid synced
          = ⟨OpenOutcome.skippedIdempotent, synced, []⟩)
    ∧ (∀ n : Nat, (iterateOpen env symbol side rid n synced).2 ≤ 1) := by
  refine ⟨fun hm => handleOpen_skip env symbol side rid synced ht hm, ?_⟩
  intro n
  cases n with
  | zero => simp [iterateOpen]
  | succ k =>
      have h1 := placementCount_handleOpen_le env symbol side rid synced
      have h2 := iterateOpen_zero_of_mem env symbol side rid ht k
        (handleOpenPosition env symbol side rid synced).syncedFills
        (handleOpen_mem env symbol side rid synced ht)
      simp only [iterateOpen, h2]
      simpa using h1

/-- C2 witness: the amended theorem applied at event id `7` — the entry
check short-circuits when `7` is recorded, and three repeated
invocations from an empty processed set issue at most one placement. -/
theorem c2_at_most_one_placement_witness :
    handleOpenPosition ⟨1, 1, 0, 100, true⟩ "BTCUSDT" "Buy" (some 7) [7]
      = ⟨OpenOutcome.skippedIdempotent, [7], []⟩
    ∧ (iterateOpen ⟨1, 1, 0, 100, true⟩ "BTCUSDT" "Buy" (some 7) 3 []).2 ≤ 1 :=
  ⟨(c2_at_most_one_placement ⟨1, 1, 0, 100, true⟩ "BTCUSDT" "Buy" (some 7) [7]
      (by decide)).1 (by decide),
   (c2_at_most_one_placement ⟨1, 1, 0, 100, true⟩ "BTCUSDT" "Buy" (some 7) []
      (by decide)).2 3⟩

/-! ## Claim C9 -/

/-- C9 counterexample: with the per-coin override table mapping BTC to
50x, the configured maximum for BTC is 50; but the open handler's
pre-trade call is `set_max_leverage(symbol, use_exchange_max=True)` with
the exchange's own maximum (here 100), so the leverage set before the
market order is 100, and no call sets the configured 50. -/
theorem c9_exchange_max_leverage_counterexample :
    getLeverageForSymbol [("BTC", 50)] 20 "BTC" = 50
    ∧ (handleOpenPosition ⟨1, 1, 0, 100, true⟩ "BTCUSDT" "Buy" (some 1) []).actions
        = [VenueAction.setMaxLeverage true 100,
            VenueAction.placeMarketOrder "BTCUSDT" "Buy" 1]
    ∧ VenueAction.setMaxLeverage true 50
        ∉ (handleOpenPosition ⟨1, 1, 0, 100, true⟩ "BTCUSDT" "Buy" (some 1) []).actions := by
  decide

/-- C9 (amended): whenever `_handle_open_position` proceeds past its
entry check and small-value filter, its first venue action is
`set_max_leverage` with the use-exchange-max flag, carrying whatever
leverage the exchange-maximum call returns (so it precedes any market
order); the configured table (`_get_leverage_for_symbol`) returns the
per-coin override when present and the global default otherwise, and is
used only for leverage figures in notifications. -/
theorem c9_pretrade_leverage
    (env : OpenEnv) (symbol side : String) (rid : Option Int) (synced : List Int)
    (cfg : List (String × Int)) (maxLev v : Int) (coin : String)
    (hskip : ¬(pyTruthyId rid = true ∧ (rid.getD 0) ∈ synced))
    (hcs : 0 < env.copySize) :
    (handleOpenPosition env symbol side rid synced).actions.head?
      = some (VenueAction.setMaxLeverage true env.exchangeLeverage)
    ∧ (List.lookup coin cfg = some v → getLeverageForSymbol cfg maxLev coin = v)
    ∧ (List.lookup coin cfg = none → getLeverageForSymbol cfg maxLev coin = maxLev) := by
  refine ⟨?_, fun h => by simp [getLeverageForSymbol, h],
    fun h => by simp [getLeverageForSymbol, h]⟩
  unfold handleOpenPosition
  rw [if_neg hskip, if_neg (not_le.mpr hcs)]
  repeat' split
  all_goals rfl

/-- C9 witness: the amended theorem applied at a concrete environment
with exchange maximum 100 and override table `BTC ↦ 50`. -/
theorem c9_pretrade_leverage_witness :
    (handleOpenPosition ⟨1, 1, 0, 100, true⟩ "BTCUSDT" "Buy" (some 1) []).actions.head?
      = some (VenueAction.setMaxLeverage true 100)
    ∧ getLeverageForSymbol [("BTC", 50)] 20 "BTC" = 50 :=
  ⟨(c9_pretrade_leverage ⟨1, 1, 0, 100, true⟩ "BTCUSDT" "Buy" (some 1) []
      [("BTC", 50)] 20 50 "BTC" (by decide) (by decide)).1,
   (c9_pretrade_leverage ⟨1, 1, 0, 100, true⟩ "BTCUSDT" "Buy" (some 1) []
      [("BTC", 50)] 20 50 "BTC" (by decide) (by decide)).2.1 (by decide)⟩

/-! ## Claim C3 -/

/-- C3 counterexample: with source reduce size 5, destination position
50 and minimum lot 10, `min(source, position) = 5` falls below the
minimum lot, but the handler closes 10 (the minimum lot), not the full
position 50 and not `min(source, position)`; the close is not flagged a
forced full close and no forced memo is written. -/
theorem c3_min_lot_partial_close_counterexample :
    ratMin (5 : ℚ) 50 < 10
    ∧ partialCloseCalc 5 50 10 = ⟨10, false, true⟩
    ∧ (partialCloseCalc 5 50 10).closeSize ≠ ratMin (5 : ℚ) 50
    ∧ (partialCloseCalc 5 50 10).closeSize ≠ 50
    ∧ closeMemoUpdate [] "SOLUSDT" "Buy" 0 false
        (partialCloseCalc 5 50 10).wasForcedFullClose true 10 = [] := by
  decide

/-- C3 (amended): on the partial-close path of `_handle_close_position`
the handler closes `min(source, position)` when that is at least the
minimum lot (or no positive minimum lot is known); when it falls below
the minimum lot the close quantity is bumped to
`min(min_lot, position)`, and the operation is promoted to a full close
(with a `forced` ForcedLiquidationMemo written for `(symbol, side)` on
success) exactly when the whole position is at most the minimum lot.
The zero-pnl `Close`-direction path (`_handle_reduce_position`) instead
always closes the entire position, flagging it forced under the same
`position ≤ min_lot` condition. -/
theorem c3_partial_close_sizing
    (size posSize minQty now closedSize : ℚ) (store : List (String × LiqMemo))
    (sym sd : String) :
    (¬(0 < minQty ∧ ratMin size posSize < minQty) →
        partialCloseCalc size posSize minQty
          = ⟨ratMin size posSize, false,
              if ratMin size posSize < posSize then true else false⟩)
    ∧ ((0 < minQty ∧ ratMin size posSize < minQty) →
        (partialCloseCalc size posSize minQty).closeSize = ratMin minQty posSize
        ∧ ((partialCloseCalc size posSize minQty).wasForcedFullClose = true
            ↔ posSize ≤ minQty))
    ∧ ((partialCloseCalc size posSize minQty).wasForcedFullClose = true →
        0 < closedSize →
        List.lookup (sym ++ "_" ++ sd)
          (closeMemoUpdate store sym sd now false
            (partialCloseCalc size posSize minQty).wasForcedFullClose true closedSize)
          = some ⟨now, "forced"⟩)
    ∧ (reduceCloseCalc posSize minQty).closeSize = posSize
    ∧ ((reduceCloseCalc posSize minQty).wasForcedFullClose = true
        ↔ (0 < minQty ∧ posSize ≤ minQty)) := by
  refine ⟨fun h => ?_, fun h => ?_, fun hf hc => ?_, rfl, ?_⟩
  · simp [partialCloseCalc, h]
  · constructor
    · simp [partialCloseCalc, h]
    · simp only [partialCloseCalc, if_pos h]
      rw [ite_true_false_eq_true, ratMin_eq_min, le_min_iff]
      simp
  · simp [closeMemoUpdate, hf, hc, memoInsert, List.lookup]
  · simp only [reduceCloseCalc]
    rw [ite_true_false_eq_true]

/-- C3 witness: the amended theorem applied at source size 5, position
8, minimum lot 10 — the bump reaches the whole position, the close is
promoted, and a forced memo is written. -/
theorem c3_partial_close_sizing_witness :
    (partialCloseCalc 5 8 10).closeSize = ratMin (10 : ℚ) 8
    ∧ List.lookup ("SOLUSDT" ++ "_" ++ "Buy")
        (closeMemoUpdate [] "SOLUSDT" "Buy" 0 false
          (partialCloseCalc 5 8 10).wasForcedFullClose true 8)
      = some ⟨0, "forced"⟩ :=
  ⟨((c3_partial_close_sizing 5 8 10 0 8 [] "SOLUSDT" "Buy").2.1 (by decide)).1,
   (c3_partial_close_sizing 5 8 10 0 8 [] "SOLUSDT" "Buy").2.2.1
     (by decide) (by decide)⟩

/-! ## Claim C6 -/

/-- C6 counterexample: when the post-110017 requery returns an empty
position list, the queried size for the target symbol and side is 0,
yet the handler does not treat the close as a success and does send a
failure notification (it treats the empty answer as unverifiable). -/
theorem c6_empty_requery_counterexample :
    posQuerySize [] "BTCUSDT" "Buy" = 0
    ∧ handleCloseFailureCheck "110017" [] "BTCUSDT" "Buy" = ⟨5, true, false, true⟩ := by
  decide

/-- C6 (amended): on venue error code 110017 the handler waits 5
seconds and requeries live positions without cache; when the requery
returns a non-empty list in which the size for the target symbol and
side is 0 (absent counts as 0) it treats the close as a success and
emits no failure notification; a nonzero size is a real failure; an
empty requery result is treated as unverifiable and also notifies
failure. -/
theorem c6_position_zero_recovery (ec : String) (ps : List BPosition)
    (sym sd : String) (hec : ec = "110017") :
    (ps ≠ [] → posQuerySize ps sym sd = 0 →
        handleCloseFailureCheck ec ps sym sd = ⟨5, true, true, false⟩)
    ∧ (ps ≠ [] → posQuerySize ps sym sd ≠ 0 →
        handleCloseFailureCheck ec ps sym sd = ⟨5, true, false, true⟩)
    ∧ (ps = [] → handleCloseFailureCheck ec ps sym sd = ⟨5, true, false, true⟩)
    ∧ (handleCloseFailureCheck ec ps sym sd).sleptSeconds = 5 := by
  subst hec
  refine ⟨fun hps h => ?_, fun hps h => ?_, fun hps => ?_, ?_⟩
  · simp [handleCloseFailureCheck, hps, h]
  · simp [handleCloseFailureCheck, hps, h]
  · simp [handleCloseFailureCheck, hps]
  · unfold handleCloseFailureCheck
    rw [if_pos rfl]
    split
    · split <;> rfl
    · rfl

/-- C6 witness: the amended theorem applied at a requery returning one
position on the opposite side, so the target size is 0 and the close is
treated as achieved with no failure notification. -/
theorem c6_position_zero_recovery_witness :
    handleCloseFailureCheck "110017" [⟨"BTCUSDT", "Sell", 3⟩] "BTCUSDT" "Buy"
      = ⟨5, true, true, false⟩ :=
  (c6_position_zero_recovery "110017" [⟨"BTCUSDT", "Sell", 3⟩] "BTCUSDT" "Buy"
    rfl).1 (by decide) (by decide)

/-! ## Claim C7 -/

theorem lookup_mappingInsert (m : List (Int × String)) (k : Int) (b : String) :
    List.lookup k (mappingInsert m k b) = some b := by
  simp [mappingInsert, List.lookup]

theorem lookup_mappingErase (m : List (Int × String)) (k : Int) :
    List.lookup k (mappingErase m k) = none :=
  lookup_filter_ne m k

/-- C7: a successful PLACE records `source order_id ↦ destination order
id`; a later CANCEL for that source id cancels the mapped destination
order and on success removes the entry, leaving the mapping empty for
that id; a CANCEL with no mapping falls back to the open-order scan for
a `(symbol, side, price)` match within one cent and cancels the scanned
order; when the scan also finds nothing the cancel is a no-op with no
venue call and an unchanged mapping; and every scan hit really is an
open order matching symbol and side with price within 0.01. -/
theorem c7_order_id_map_round_trip
    (env : CancelEnv) (m : List (Int × String)) (symbol sd : String)
    (hl : Int) (b : String) (p : ℚ)
    (hhl : hl ≠ 0) (hb : b ≠ "")
    (hex : env.orderExists = true) (hcs : env.cancelSucceeds = true) :
    (List.lookup hl (recordPlaceMapping m (some hl) true b) = some b)
    ∧ ((handleCancelOrder env (recordPlaceMapping m (some hl) true b) symbol
          (some hl) p sd).1 = CancelOutcome.cancelSuccess b
        ∧ List.lookup hl (handleCancelOrder env
            (recordPlaceMapping m (some hl) true b) symbol (some hl) p sd).2 = none)
    ∧ (∀ (m2 : List (Int × String)) (hl2 : Int) (bid : String), hl2 ≠ 0 →
        List.lookup hl2 m2 = none → 0 < p →
        scanMatchingOrder env.openOrders symbol sd p = some bid →
        (handleCancelOrder env m2 symbol (some hl2) p sd).1
          = CancelOutcome.cancelSuccess bid)
    ∧ (∀ (m2 : List (Int × String)) (hl2 : Int), hl2 ≠ 0 →
        List.lookup hl2 m2 = none → 0 < p →
        scanMatchingOrder env.openOrders symbol sd p = none →
        handleCancelOrder env m2 symbol (some hl2) p sd
          = (CancelOutcome.noTargetFound, m2))
    ∧ (∀ (orders : List OpenOrder) (bid : String),
        scanMatchingOrder orders symbol sd p = some bid →
        ∃ o ∈ orders, o.orderId = bid ∧ o.symbol = symbol ∧ o.side = sd
          ∧ |o.price - p| < 1/100) := by
  have hmap : recordPlaceMapping m (some hl) true b = mappingInsert m hl b := by
    simp [recordPlaceMapping, pyTruthyId, hb, hhl]
  have hlook : List.lookup hl (mappingInsert m hl b) = some b :=
    lookup_mappingInsert m hl b
  have htruthy : pyTruthyId (some hl) = true := by
    simp [pyTruthyId, hhl]
  refine ⟨hmap ▸ hlook, ⟨?_, ?_⟩, fun m2 hl2 bid hhl2 hnone hp hscan => ?_,
    fun m2 hl2 hhl2 hnone hp hscan => ?_, fun orders bid hscan => ?_⟩
  · rw [hmap]
    simp [handleCancelOrder, htruthy, hlook, hex, hcs]
  · rw [hmap]
    simp [handleCancelOrder, htruthy, hlook, hex, hcs, mappingErase,
      lookup_filter_ne]
  · have ht2 : pyTruthyId (some hl2) = true := by simp [pyTruthyId, hhl2]
    simp [handleCancelOrder, ht2, hnone, hp, hscan, hex, hcs]
  · have ht2 : pyTruthyId (some hl2) = true := by simp [pyTruthyId, hhl2]
    simp [handleCancelOrder, ht2, hnone, hp, hscan]
  · unfold scanMatchingOrder at hscan
    rcases hfind : orders.find? (fun o =>
        o.symbol == symbol && o.side == sd
          && (if ratAbs (o.price - p) < 1/100 then true else false)) with _ | o
    · rw [hfind] at hscan
      exact absurd hscan (by simp)
    · rw [hfind] at hscan
      have hmem := List.mem_of_find?_eq_some hfind
      have hpred := List.find?_some hfind
      simp only [Bool.and_eq_true, beq_iff_eq, ite_true_false_eq_true] at hpred
      refine ⟨o, hmem, ?_, hpred.1.1, hpred.1.2, ?_⟩
      · simpa using hscan
      · rw [← ratAbs_eq_abs]
        exact hpred.2

/-- C7 witness: a concrete place at source id 42 mapped to destination
order `"exA"`, then a matching cancel that succeeds and empties the
mapping entry. -/
theorem c7_order_id_map_round_trip_witness :
    List.lookup 42 (recordPlaceMapping [] (some 42) true "exA") = some "exA"
    ∧ (handleCancelOrder ⟨[], true, true⟩ (recordPlaceMapping [] (some 42) true "exA")
        "BTCUSDT" (some 42) 100 "Buy").1 = CancelOutcome.cancelSuccess "exA"
    ∧ List.lookup 42 (handleCancelOrder ⟨[], true, true⟩
        (recordPlaceMapping [] (some 42) true "exA") "BTCUSDT" (some 42) 100 "Buy").2
      = none :=
  ⟨(c7_order_id_map_round_trip ⟨[], true, true⟩ [] "BTCUSDT" "Buy" 42 "exA" 100
      (by decide) (by decide) rfl rfl).1,
   (c7_order_id_map_round_trip ⟨[], true, true⟩ [] "BTCUSDT" "Buy" 42 "exA" 100
      (by decide) (by decide) rfl rfl).2.1.1,
   (c7_order_id_map_round_trip ⟨[], true, true⟩ [] "BTCUSDT" "Buy" 42 "exA" 100
      (by decide) (by decide) rfl rfl).2.1.2⟩

/-! ## Claim C8 -/

/-- C8: a forced-liquidation memo for `(symbol, side)` written at time T
is returned by `get_forced_liquidation` for every query strictly less
than 300 seconds after T, and for every query at 300 seconds or more
after T the lookup returns `none` and deletes the expired entry. -/
theorem c8_forced_memo_ttl (store : List (String × LiqMemo)) (sym sd : String)
    (m : LiqMemo) (hl : List.lookup (sym ++ "_" ++ sd) store = some m) :
    (∀ now : ℚ, now - m.time < 300 →
        getForcedLiquidation store now sym sd = (some m, store))
    ∧ (∀ now : ℚ, 300 ≤ now - m.time →
        (getForcedLiquidation store now sym sd).1 = none
        ∧ List.lookup (sym ++ "_" ++ sd)
            (getForcedLiquidation store now sym sd).2 = none) := by
  constructor
  · intro now h
    simp [getForcedLiquidation, hl, h]
  · intro now h
    have hnot : ¬(now - m.time < 300) := not_lt.mpr h
    constructor
    · simp [getForcedLiquidation, hl, hnot]
    · simp [getForcedLiquidation, hl, hnot, memoErase, lookup_filter_ne]

/-- C8 witness: a memo written at time 0 is still returned at 299
seconds and is gone (returned `none`, entry deleted) at 301 seconds. -/
theorem c8_forced_memo_ttl_witness :
    getForcedLiquidation [("BTCUSDT" ++ "_" ++ "Buy", ⟨0, "forced"⟩)] 299
        "BTCUSDT" "Buy"
      = (some ⟨0, "forced"⟩, [("BTCUSDT" ++ "_" ++ "Buy", ⟨0, "forced"⟩)])
    ∧ (getForcedLiquidation [("BTCUSDT" ++ "_" ++ "Buy", ⟨0, "forced"⟩)] 301
        "BTCUSDT" "Buy").1 = none
    ∧ List.lookup ("BTCUSDT" ++ "_" ++ "Buy")
        (getForcedLiquidation [("BTCUSDT" ++ "_" ++ "Buy", ⟨0, "forced"⟩)] 301
          "BTCUSDT" "Buy").2 = none :=
  ⟨(c8_forced_memo_ttl [("BTCUSDT" ++ "_" ++ "Buy", ⟨0, "forced"⟩)] "BTCUSDT" "Buy"
      ⟨0, "forced"⟩ (by simp [List.lookup])).1 299 (by norm_num),
   ((c8_forced_memo_ttl [("BTCUSDT" ++ "_" ++ "Buy", ⟨0, "forced"⟩)] "BTCUSDT" "Buy"
      ⟨0, "forced"⟩ (by simp [List.lookup])).2 301 (by norm_num)).1,
   ((c8_forced_memo_ttl [("BTCUSDT" ++ "_" ++ "Buy", ⟨0, "forced"⟩)] "BTCUSDT" "Buy"
      ⟨0, "forced"⟩ (by simp [List.lookup])).2 301 (by norm_num)).2⟩

end HyperSmart
